import Mathlib

/-!
Shallow embedding of the product catalog service (`src/main.py`).

Conventions of the embedding:

* Stored documents live in a schema-less document store.  Each product field
  of a stored document is modelled as `Option (Option τ)`: the outer `none`
  means the key is absent from the document, `some none` means the key is
  present with a null value, and `some (some v)` means the key holds the
  (well-typed) value `v`.  Numbers are modelled as `ℚ`.
* Pydantic model construction (`ProductCreate`, `ProductOut`) validates its
  field constraints (`title : str` and `category : str` reject null/absent,
  `price` has `ge=0`, `rating` has `ge=0, le=5`); a constraint violation is
  a `validationError`.  Python `float(None)` raising `TypeError` is the
  `typeError` outcome.
* The store handle `db` is assumed configured (the `db is None` branch of
  every route raises 500 and is outside every claim considered here).
* The native `ObjectId` is modelled as a `Nat` below `16 ^ 24`; its external
  form is the 24-character hexadecimal string, and a client-supplied string
  is well-formed exactly when it has length 24 and only hexadecimal digits.
-/

namespace Catalog

/-- Error outcomes surfaced by the service routes. -/
inductive ApiError where
  | serviceUnavailable
  | invalidId
  | notFound
  | validationError
  | typeError
  deriving DecidableEq, Repr

/-- A stored product document (schema-less): each field is absent (`none`),
present-but-null (`some none`), or a typed value (`some (some v)`); `oid` is
the store-assigned native identifier. -/
structure StoredDoc where
  oid : Nat
  title : Option (Option String)
  description : Option (Option String)
  price : Option (Option ℚ)
  category : Option (Option String)
  in_stock : Option (Option Bool)
  image_url : Option (Option String)
  rating : Option (Option ℚ)
  deriving DecidableEq, Repr

/-- Python `doc.get(key)` semantics on a modelled field: an absent key and a
null value both read as `None`. -/
def getOpt {α : Type} : Option (Option α) → Option α
  | none => none
  | some none => none
  | some (some v) => some v

/-- The API-facing product representation (`ProductOut` in `src/main.py`). -/
structure ProductOut where
  id : String
  title : String
  description : Option String
  price : ℚ
  category : String
  in_stock : Bool
  image_url : Option String
  rating : Option ℚ
  deriving DecidableEq, Repr

/-- A validated create payload (`ProductCreate` after pydantic validation):
defaults are already applied, constraints already hold. -/
structure ProductCreate where
  title : String
  description : Option String
  price : ℚ
  category : String
  in_stock : Bool
  image_url : Option String
  rating : Option ℚ
  deriving DecidableEq, Repr

/-- A raw create payload as sent by the client, before pydantic validation:
`in_stock = none` means the key was omitted (defaults to `true`);
`rating = none` means omitted (defaults to `4.5`), `some none` means an
explicit null, `some (some r)` a numeric value. -/
structure CreatePayload where
  title : String
  description : Option String
  price : ℚ
  category : String
  in_stock : Option Bool
  image_url : Option String
  rating : Option (Option ℚ)
  deriving DecidableEq, Repr

/-- Pydantic validation of `ProductCreate` (`src/main.py` lines 23-30):
`price` must satisfy `ge=0`; `rating`, when a number, must satisfy
`ge=0, le=5`; omitted `in_stock` defaults to `true`; omitted `rating`
defaults to `4.5`; an explicit null rating stays null. -/
def validateCreate (p : CreatePayload) : Except ApiError ProductCreate :=
  if p.price < 0 then .error .validationError
  else
    match p.rating with
    | some (some r) =>
        if r < 0 ∨ 5 < r then .error .validationError
        else .ok ⟨p.title, p.description, p.price, p.category,
                  p.in_stock.getD true, p.image_url, some r⟩
    | some none =>
        .ok ⟨p.title, p.description, p.price, p.category,
             p.in_stock.getD true, p.image_url, none⟩
    | none =>
        .ok ⟨p.title, p.description, p.price, p.category,
             p.in_stock.getD true, p.image_url, some (4.5 : ℚ)⟩

/-- Hexadecimal digit test used by `ObjectId.is_valid` on a string. -/
def isHexDigitChar (c : Char) : Bool :=
  c.isDigit || (decide (Char.ofNat 97 ≤ c) && decide (c ≤ Char.ofNat 102))
    || (decide (Char.ofNat 65 ≤ c) && decide (c ≤ Char.ofNat 70))

/-- Well-formedness of a client-supplied identifier string (`bson`
`ObjectId.is_valid` for `str` input): exactly 24 hexadecimal characters. -/
def isValidObjectId (s : String) : Bool :=
  s.length == 24 && s.data.all isHexDigitChar

/-- Numeric value of a hexadecimal digit character. -/
def hexVal (c : Char) : Nat :=
  if c.isDigit then c.toNat - 48
  else if decide (Char.ofNat 97 ≤ c) && decide (c ≤ Char.ofNat 102) then
    c.toNat - 87
  else c.toNat - 55

/-- Decode a hexadecimal character list to a natural number. -/
def decodeHexList (l : List Char) : Nat :=
  l.foldl (fun a c => 16 * a + hexVal c) 0

/-- Decode a well-formed identifier string to the native id (`ObjectId(s)`). -/
def decodeOid (s : String) : Nat :=
  decodeHexList s.data

/-- Lower-case hexadecimal digit character for a value below 16. -/
def hexDigit (n : Nat) : Char :=
  if n < 10 then Char.ofNat (48 + n) else Char.ofNat (87 + n)

/-- Fixed-width lower-case hexadecimal rendering, most significant first. -/
def toHexPadded : Nat → Nat → List Char
  | 0, _ => []
  | w + 1, n => toHexPadded w (n / 16) ++ [hexDigit (n % 16)]

/-- External string form of a native id (`str(ObjectId)`): 24 lower-case
hexadecimal characters. -/
def oidToString (n : Nat) : String :=
  ⟨toHexPadded 24 n⟩

/-- Tolerant stored-document-to-API mapping (`product_doc_to_out`,
`src/main.py` lines 51-61).  Keyword arguments are computed with
`doc.get` defaults first (`float(None)` on a null price raises `TypeError`
before the model is built), then `ProductOut` pydantic validation runs:
`title` and `category` must be strings (absent/null fails), `price` must be
`ge=0`, `rating` must be in `[0, 5]` when it is a number. -/
def product_doc_to_out (doc : StoredDoc) : Except ApiError ProductOut :=
  match doc.price with
  | some none => .error .typeError
  | _ =>
    let priceVal : ℚ := (getOpt doc.price).getD 0
    let inStockVal : Bool :=
      match doc.in_stock with
      | none => true
      | some none => false
      | some (some b) => b
    let ratingVal : Option ℚ := getOpt doc.rating
    match getOpt doc.title, getOpt doc.category with
    | some t, some c =>
        if priceVal < 0 then .error .validationError
        else
          match ratingVal with
          | some r =>
              if r < 0 ∨ 5 < r then .error .validationError
              else .ok ⟨oidToString doc.oid, t, getOpt doc.description, priceVal, c,
                        inStockVal, getOpt doc.image_url, some r⟩
          | none =>
              .ok ⟨oidToString doc.oid, t, getOpt doc.description, priceVal, c,
                   inStockVal, getOpt doc.image_url, none⟩
    | _, _ => .error .validationError

/-- The document store state: one `product` collection in insertion order. -/
structure DB where
  products : List StoredDoc
  deriving Repr

/-- Modelled from the spec: `database.get_documents` is imported by
`src/main.py` but `database.py` is not under `src/`.  Spec section 4.3,
repository `find`: equality filter on category when supplied, result capped
at `limit` when supplied (no default cap; absent limit returns all matches),
store-native insertion order. -/
def get_documents (db : DB) (category : Option String) (limit : Option Nat) :
    List StoredDoc :=
  let matched :=
    match category with
    | some c => db.products.filter fun d => decide (d.category = some (some c))
    | none => db.products
  match limit with
  | some n => matched.take n
  | none => matched

/-- Map each fetched document through `product_doc_to_out`, failing the whole
request on the first mapping failure (the list comprehension on line 124). -/
def mapDocs : List StoredDoc → Except ApiError (List ProductOut)
  | [] => .ok []
  | d :: ds => do
      let o ← product_doc_to_out d
      let os ← mapDocs ds
      pure (o :: os)

/-- The category filter actually sent to the store by `list_products`: the
Python truthiness test `if category:` drops the filter when the category is
absent or the empty string. -/
def effectiveCategory (category : Option String) : Option String :=
  match category with
  | some c => if c = "" then none else some c
  | none => none

/-- `GET /api/products` (`list_products`, `src/main.py` lines 114-124),
with the store handle configured. -/
def list_products (db : DB) (limit : Option Nat) (category : Option String) :
    Except ApiError (List ProductOut) :=
  mapDocs (get_documents db (effectiveCategory category) limit)

/-- Outcome of the store lookup inside `get_product`: a document, no
document, or a driver-raised exception. -/
inductive LookupResult where
  | found (d : StoredDoc)
  | missing
  | fault
  deriving Repr

/-- `GET /api/products/{id}` (`get_product`, `src/main.py` lines 127-140)
over an arbitrary store-lookup behaviour: the `try` block covers both
`ObjectId(product_id)` and `find_one`, and `except Exception` turns any
exception from either into the 400-class invalid-id error; then a missing
document is 404 and a found document is mapped through
`product_doc_to_out`. -/
def get_product_core (s : String) (find_one : Nat → LookupResult) :
    Except ApiError ProductOut :=
  if isValidObjectId s then
    match find_one (decodeOid s) with
    | .fault => .error .invalidId
    | .missing => .error .notFound
    | .found doc => product_doc_to_out doc
  else .error .invalidId

/-- First document of the collection with the given native id (`find_one`
on a healthy store). -/
def findById (db : DB) (oid : Nat) : Option StoredDoc :=
  db.products.find? fun d => decide (d.oid = oid)

/-- `GET /api/products/{id}` against a healthy store. -/
def get_product (db : DB) (s : String) : Except ApiError ProductOut :=
  get_product_core s fun oid =>
    match findById db oid with
    | some d => .found d
    | none => .missing

/-- `payload.model_dump()` followed by insertion: every key is present in
the stored document; optional fields that are `None` are stored as null. -/
def toStoredDocument (newId : Nat) (p : ProductCreate) : StoredDoc :=
  ⟨newId, some (some p.title), some p.description, some (some p.price),
   some (some p.category), some (some p.in_stock), some p.image_url,
   some p.rating⟩

/-- Modelled from the spec: `database.create_document` is imported by
`src/main.py` but `database.py` is not under `src/`.  Spec section 4.3,
repository `insertOne`: appends the document, the store assigns a fresh
native id (passed here explicitly as `newId`). -/
def create_document (db : DB) (doc : StoredDoc) : DB :=
  ⟨db.products ++ [doc]⟩

/-- `POST /api/products` (`create_product`, `src/main.py` lines 143-151)
with a validated payload: persists the dumped document and returns the new
id's external string form. -/
def create_product (db : DB) (p : ProductCreate) (newId : Nat) : DB × String :=
  (create_document db (toStoredDocument newId p), oidToString newId)

/-- The fixed seed fixture (`sample_products`, `src/main.py` lines 163-200),
with the four store-assigned ids supplied by `ids`. -/
def sampleProducts (ids : Fin 4 → Nat) : List StoredDoc :=
  [⟨ids 0, some (some "Pastel Visa Card"),
    some (some "Minimalist fintech card with soft-touch finish"),
    some (some (29.99 : ℚ)), some (some "Cards"), some (some true),
    some (some "https://images.unsplash.com/photo-1543002588-bfa74002ed7e?q=80&w=1200&auto=format&fit=crop"),
    some (some (4.8 : ℚ))⟩,
   ⟨ids 1, some (some "Digital Wallet Subscription"),
    some (some "Secure multi-currency wallet with instant transfers"),
    some (some (9.99 : ℚ)), some (some "Services"), some (some true),
    some (some "https://images.unsplash.com/photo-1612178991541-baf93d77a9a0?q=80&w=1200&auto=format&fit=crop"),
    some (some (4.7 : ℚ))⟩,
   ⟨ids 2, some (some "Smart NFC Tag"),
    some (some "Tap-to-pay accessory for seamless checkout"),
    some (some (14.5 : ℚ)), some (some "Accessories"), some (some true),
    some (some "https://images.unsplash.com/photo-1518770660439-4636190af475?q=80&w=1200&auto=format&fit=crop"),
    some (some (4.4 : ℚ))⟩,
   ⟨ids 3, some (some "Premium Card Holder"),
    some (some "Matte silicone holder in pastel tones"),
    some (some (19.0 : ℚ)), some (some "Accessories"), some (some true),
    some (some "https://images.unsplash.com/photo-1537039557101-0e0f4e3d0f51?q=80&w=1200&auto=format&fit=crop"),
    some (some (4.6 : ℚ))⟩]

/-- The JSON body returned by the seed route. -/
structure SeedResult where
  inserted : Nat
  message : Option String
  deriving DecidableEq, Repr

/-- `POST /api/products/seed` (`seed_products`, `src/main.py` lines
154-203): if `count_documents({}) > 0` (modelled from the spec as
`countAll`, the collection length) it reports zero inserted and an
already-exist message without writing; otherwise it bulk-inserts the
fixture via `insert_many` (modelled from the spec: all-or-nothing) and
reports `len(result.inserted_ids)`. -/
def seed_products (db : DB) (ids : Fin 4 → Nat) : DB × SeedResult :=
  if db.products.length > 0 then
    (db, ⟨0, some "Products already exist"⟩)
  else
    (⟨db.products ++ sampleProducts ids⟩, ⟨(sampleProducts ids).length, none⟩)

/-- Readability condition for the amended mapping claim: the mapping
succeeds exactly on documents whose title and category are present and
non-null, whose price is not present-but-null and non-negative when
present, and whose rating is within `[0, 5]` when it is a number. -/
def DocReadable (doc : StoredDoc) : Prop :=
  (getOpt doc.title).isSome = true ∧ (getOpt doc.category).isSome = true ∧
  doc.price ≠ some none ∧ 0 ≤ (getOpt doc.price).getD 0 ∧
  ∀ r, getOpt doc.rating = some r → 0 ≤ r ∧ r ≤ 5

/-- The `in_stock` value computed by the mapping: `bool(doc.get("in_stock",
True))`, so absent reads `true` and a present null reads `false`. -/
def inStockOut (doc : StoredDoc) : Bool :=
  match doc.in_stock with
  | none => true
  | some none => false
  | some (some b) => b

/-- The ProductOut that reading back a freshly created product yields. -/
def outOfCreate (p : ProductCreate) (s : String) : ProductOut :=
  ⟨s, p.title, p.description, p.price, p.category, p.in_stock, p.image_url,
   p.rating⟩

/-- A well-formed stored document fixture: category "Cards", price 1,
explicit null description, rating 4. -/
def cardDoc : StoredDoc :=
  ⟨1, some (some "A"), some none, some (some 1), some (some "Cards"),
   some (some true), some none, some (some 4)⟩

/-- The API output that reading `cardDoc` yields. -/
def cardOut : ProductOut :=
  ⟨oidToString 1, "A", none, 1, "Cards", true, none, some 4⟩

/-- A fixture document with no rating key at all. -/
def docNoRating : StoredDoc :=
  ⟨5, some (some "T"), none, none, some (some "C"), none, none, none⟩

/-- The same fixture with the rating key present but null. -/
def nullRatingDoc : StoredDoc :=
  ⟨5, some (some "T"), none, none, some (some "C"), none, none, some none⟩

-- Lemmas about the identifier codec -------------------------------------

theorem getOpt_some {α : Type} (x : Option α) : getOpt (some x) = x := by
  cases x <;> rfl

theorem hexVal_hexDigit : ∀ m : Nat, m < 16 → hexVal (hexDigit m) = m := by
  decide

theorem isHexDigitChar_hexDigit : ∀ m : Nat, m < 16 → isHexDigitChar (hexDigit m) = true := by
  decide

theorem toHexPadded_length (w : Nat) : ∀ n : Nat, (toHexPadded w n).length = w := by
  induction w with
  | zero => intro n; simp [toHexPadded]
  | succ w ih => intro n; simp [toHexPadded, ih]

theorem toHexPadded_all_hex (w : Nat) :
    ∀ n : Nat, (toHexPadded w n).all isHexDigitChar = true := by
  induction w with
  | zero => intro n; simp [toHexPadded]
  | succ w ih =>
      intro n
      simp only [toHexPadded, List.all_append, ih, Bool.true_and, List.all_cons,
        List.all_nil, Bool.and_true]
      exact isHexDigitChar_hexDigit _ (Nat.mod_lt _ (by norm_num))

theorem decodeHexList_append (l : List Char) (c : Char) :
    decodeHexList (l ++ [c]) = 16 * decodeHexList l + hexVal c := by
  simp [decodeHexList, List.foldl_append]

theorem decodeHexList_toHexPadded (w : Nat) :
    ∀ n : Nat, n < 16 ^ w → decodeHexList (toHexPadded w n) = n := by
  induction w with
  | zero =>
      intro n hn
      interval_cases n
      simp [toHexPadded, decodeHexList]
  | succ w ih =>
      intro n hn
      rw [toHexPadded, decodeHexList_append, ih (n / 16) ?_,
        hexVal_hexDigit _ (Nat.mod_lt _ (by norm_num))]
      · omega
      · have hpow : 16 ^ (w + 1) = 16 * 16 ^ w := by ring
        exact Nat.div_lt_of_lt_mul (by rw [hpow] at hn; omega)

theorem isValidObjectId_oidToString (n : Nat) :
    isValidObjectId (oidToString n) = true := by
  simp only [isValidObjectId, oidToString, Bool.and_eq_true, beq_iff_eq]
  constructor
  · show (toHexPadded 24 n).length = 24
    exact toHexPadded_length 24 n
  · show (toHexPadded 24 n).all isHexDigitChar = true
    exact toHexPadded_all_hex 24 n

theorem decodeOid_oidToString (n : Nat) (h : n < 16 ^ 24) :
    decodeOid (oidToString n) = n := by
  show decodeHexList (toHexPadded 24 n) = n
  exact decodeHexList_toHexPadded 24 n h

-- Lemmas about list helpers ----------------------------------------------

theorem find?_append_of_not_found {α : Type} (p : α → Bool) (l1 l2 : List α)
    (h : ∀ a ∈ l1, p a = false) : (l1 ++ l2).find? p = l2.find? p := by
  induction l1 with
  | nil => simp
  | cons a l ih =>
      have ha : p a = false := h a (by simp)
      simp only [List.cons_append, List.find?, ha]
      exact ih fun b hb => h b (by simp [hb])

theorem mapDocs_ok_length :
    ∀ (l : List StoredDoc) (outs : List ProductOut),
      mapDocs l = .ok outs → outs.length = l.length := by
  intro l
  induction l with
  | nil => intro outs h; simp [mapDocs] at h; simp [← h]
  | cons d ds ih =>
      intro outs h
      simp only [mapDocs, bind, Except.bind] at h
      cases hd : product_doc_to_out d with
      | error e => rw [hd] at h; exact absurd h (by simp)
      | ok o =>
          rw [hd] at h
          cases hds : mapDocs ds with
          | error e => rw [hds] at h; exact absurd h (by simp)
          | ok os =>
              rw [hds] at h
              simp only [pure, Except.pure, Except.ok.injEq] at h
              subst h
              simp [ih os hds]

theorem mapDocs_ok_forall₂ :
    ∀ (l : List StoredDoc) (outs : List ProductOut),
      mapDocs l = .ok outs →
      List.Forall₂ (fun d out => product_doc_to_out d = Except.ok out) l outs := by
  intro l
  induction l with
  | nil =>
      intro outs h
      simp [mapDocs] at h
      simp [← h]
  | cons d ds ih =>
      intro outs h
      simp only [mapDocs, bind, Except.bind] at h
      cases hd : product_doc_to_out d with
      | error e => rw [hd] at h; exact absurd h (by simp)
      | ok o =>
          rw [hd] at h
          cases hds : mapDocs ds with
          | error e => rw [hds] at h; exact absurd h (by simp)
          | ok os =>
              rw [hds] at h
              simp only [pure, Except.pure, Except.ok.injEq] at h
              subst h
              exact List.Forall₂.cons hd (ih os hds)

theorem validateCreate_ok_conditions (raw : CreatePayload) (p : ProductCreate)
    (h : validateCreate raw = .ok p) :
    0 ≤ p.price ∧ (∀ r, p.rating = some r → 0 ≤ r ∧ r ≤ 5) ∧
    (raw.in_stock = none → p.in_stock = true) ∧
    (raw.rating = none → p.rating = some (4.5 : ℚ)) := by
  obtain ⟨t, d, pr, c, st, im, r⟩ := raw
  unfold validateCreate at h
  rcases r with _ | (_ | rv) <;> dsimp only at h <;> split_ifs at h with h1 h2 <;>
    simp only [Except.ok.injEq, reduceCtorEq] at h <;> subst h <;> simp_all
  norm_num

theorem product_doc_to_out_toStoredDocument (newId : Nat) (p : ProductCreate)
    (hp : 0 ≤ p.price) (hr : ∀ r, p.rating = some r → 0 ≤ r ∧ r ≤ 5) :
    product_doc_to_out (toStoredDocument newId p) =
      .ok (outOfCreate p (oidToString newId)) := by
  obtain ⟨t, d, pr, c, st, im, r⟩ := p
  simp only at hp
  rcases r with _ | rv
  · simp [product_doc_to_out, toStoredDocument, getOpt_some, outOfCreate,
      not_lt.mpr hp]
  · have hrv := hr rv rfl
    have hcond : ¬(rv < 0 ∨ 5 < rv) := by
      push_neg
      exact ⟨not_lt.mp fun hc => absurd hrv.1 (not_le.mpr hc),
        not_lt.mp fun hc => absurd hrv.2 (not_le.mpr hc)⟩
    simp [product_doc_to_out, toStoredDocument, getOpt_some, outOfCreate,
      not_lt.mpr hp, hcond]

-- Claim theorems ----------------------------------------------------------

/-- C1 (counterexample): the claim that `product_doc_to_out` never fails is
false as stated: a stored document missing its title and category (all
fields absent) fails `ProductOut` pydantic validation on read. -/
theorem product_doc_to_out_can_fail :
    product_doc_to_out ⟨0, none, none, none, none, none, none, none⟩ =
      .error .validationError := rfl

/-- C1 (amended): the mapping succeeds exactly on stored documents whose
title and category are present and non-null, whose price is not a present
null and is non-negative when present, and whose rating is within `[0, 5]`
when it is a number; on success, a missing price defaults to `0`, a missing
`in_stock` defaults to `true` (a present null reads `false`), and a
literally absent or null rating maps to an absent rating, not a default. -/
theorem product_doc_to_out_graceful_iff (doc : StoredDoc) :
    ((∃ out, product_doc_to_out doc = .ok out) ↔ DocReadable doc) ∧
    (∀ out, product_doc_to_out doc = .ok out →
      out.id = oidToString doc.oid ∧
      out.price = (getOpt doc.price).getD 0 ∧
      out.in_stock = inStockOut doc ∧
      out.rating = getOpt doc.rating) := by
  obtain ⟨oid, t, d, pr, c, st, im, r⟩ := doc
  rcases pr with _ | (_ | pv) <;> rcases t with _ | (_ | tv) <;>
    rcases c with _ | (_ | cv) <;> rcases r with _ | (_ | rv) <;>
      simp [product_doc_to_out, DocReadable, getOpt, inStockOut] <;>
      split_ifs <;> simp_all
  all_goals rename_i h
  all_goals intro hv
  all_goals rcases h with h | h
  all_goals linarith

/-- C1 (witness): a document with title and category present, price absent
and rating present-but-null maps successfully, with an absent rating. -/
theorem product_doc_to_out_graceful_iff_witness :
    ∃ out, product_doc_to_out nullRatingDoc = .ok out ∧ out.rating = none := by
  have h := product_doc_to_out_graceful_iff nullRatingDoc
  obtain ⟨out, hout⟩ := h.1.mpr
    ⟨rfl, rfl, by simp [nullRatingDoc], by norm_num [nullRatingDoc, getOpt],
     fun r hr => by simp [nullRatingDoc, getOpt] at hr⟩
  exact ⟨out, hout, by rw [(h.2 out hout).2.2.2]; rfl⟩

/-- C2 (counterexample): `list(category="")` does not return only records
whose category is the empty string: the Python truthiness test
`if category:` drops the filter, so a record with category "Cards" is
returned. -/
theorem list_products_empty_category_unfiltered :
    list_products ⟨[cardDoc]⟩ none (some "") = .ok [cardOut] ∧
    cardOut.category ≠ "" := by
  constructor
  · rfl
  · decide

/-- C2 (amended): for every non-empty category string C, `list(category=C)`
returns exactly the records whose stored category equals C, in order, and
the empty sequence (not an error) when none match; for the empty string the
filter is dropped and all records are returned. -/
theorem list_products_category_exact (db : DB) (c : String) (hc : c ≠ "") :
    (∀ outs, list_products db none (some c) = .ok outs →
       List.Forall₂ (fun d out => product_doc_to_out d = Except.ok out)
         (db.products.filter fun d => decide (d.category = some (some c))) outs) ∧
    ((db.products.filter fun d => decide (d.category = some (some c))) = [] →
       list_products db none (some c) = .ok []) := by
  have heff : effectiveCategory (some c) = some c := by
    simp [effectiveCategory, hc]
  constructor
  · intro outs h
    unfold list_products at h
    rw [heff] at h
    unfold get_documents at h
    dsimp only at h
    exact mapDocs_ok_forall₂ _ _ h
  · intro hnil
    unfold list_products get_documents
    rw [heff]
    dsimp only
    rw [hnil]
    rfl

/-- C2 (witness): with one "Cards" record, listing category "Cards" pairs
exactly the matching stored record with its output. -/
theorem list_products_category_exact_witness :
    List.Forall₂ (fun d out => product_doc_to_out d = Except.ok out)
      ((⟨[cardDoc]⟩ : DB).products.filter fun d =>
        decide (d.category = some (some "Cards")))
      [cardOut] :=
  (list_products_category_exact ⟨[cardDoc]⟩ "Cards" (by decide)).1 [cardOut] rfl

/-- C3: for every valid create payload, create followed by get on the
returned id yields a `ProductOut` whose fields equal the validated
payload's fields, where validation has already defaulted an omitted
`in_stock` to `true` and an omitted `rating` to `4.5`. -/
theorem create_then_get_roundtrip (db : DB) (raw : CreatePayload)
    (p : ProductCreate) (hval : validateCreate raw = .ok p) (newId : Nat)
    (hlt : newId < 16 ^ 24) (hfresh : ∀ d ∈ db.products, d.oid ≠ newId) :
    get_product (create_product db p newId).1 (create_product db p newId).2 =
      .ok (outOfCreate p (oidToString newId)) ∧
    (raw.in_stock = none → p.in_stock = true) ∧
    (raw.rating = none → p.rating = some (4.5 : ℚ)) := by
  obtain ⟨hp, hr, hst, hrt⟩ := validateCreate_ok_conditions raw p hval
  refine ⟨?_, hst, hrt⟩
  have hfind : findById ⟨db.products ++ [toStoredDocument newId p]⟩ newId =
      some (toStoredDocument newId p) := by
    unfold findById
    dsimp only
    rw [find?_append_of_not_found _ _ _ ?_]
    · simp [toStoredDocument]
    · intro a ha
      simpa using hfresh a ha
  simp only [get_product, get_product_core, create_product, create_document,
    isValidObjectId_oidToString newId, if_true, decodeOid_oidToString newId hlt,
    hfind]
  exact product_doc_to_out_toStoredDocument newId p hp hr

/-- C3 (witness): creating a minimal valid payload against an empty store
and reading the returned id back yields the defaulted output. -/
theorem create_then_get_roundtrip_witness :
    get_product
        (create_product ⟨[]⟩ ⟨"T", none, 1, "C", true, none, some (4.5 : ℚ)⟩ 7).1
        (create_product ⟨[]⟩ ⟨"T", none, 1, "C", true, none, some (4.5 : ℚ)⟩ 7).2 =
      .ok (outOfCreate ⟨"T", none, 1, "C", true, none, some (4.5 : ℚ)⟩
        (oidToString 7)) :=
  (create_then_get_roundtrip ⟨[]⟩ ⟨"T", none, 1, "C", none, none, none⟩ _ rfl 7
    (by norm_num) (by simp)).1

/-- C4: for every string that is not a well-formed store identifier,
getting a product by that id fails with the 400-class invalid-identifier
error, never with not-found and never by crashing. -/
theorem get_product_invalid_id (db : DB) (s : String)
    (h : isValidObjectId s = false) :
    get_product db s = .error .invalidId := by
  simp [get_product, get_product_core, h]

/-- C4 (witness): a malformed identifier string is rejected as invalid. -/
theorem get_product_invalid_id_witness :
    get_product ⟨[]⟩ "not-a-valid-object-id" = .error .invalidId :=
  get_product_invalid_id ⟨[]⟩ "not-a-valid-object-id" (by rfl)

/-- C5: when the catalog already holds at least one record, seeding returns
zero inserted with the already-exist message and leaves the stored
collection, in particular its count, unchanged. -/
theorem seed_noop_when_populated (db : DB) (ids : Fin 4 → Nat)
    (h : 0 < db.products.length) :
    seed_products db ids = (db, ⟨0, some "Products already exist"⟩) ∧
    (seed_products db ids).1.products.length = db.products.length := by
  have h1 : seed_products db ids = (db, ⟨0, some "Products already exist"⟩) := by
    simp [seed_products, h]
  exact ⟨h1, by rw [h1]⟩

/-- C5 (witness): seeding a one-record catalog is a no-op. -/
theorem seed_noop_when_populated_witness :
    seed_products ⟨[cardDoc]⟩ (fun i => i.val) =
      (⟨[cardDoc]⟩, ⟨0, some "Products already exist"⟩) :=
  (seed_noop_when_populated ⟨[cardDoc]⟩ (fun i => i.val) (by decide)).1

/-- C6: seeding an empty catalog inserts exactly 4 records, reports
`inserted = 4` with no message, and the inserted titles are exactly the
fixed fixture set in order. -/
theorem seed_empty_inserts_fixture (db : DB) (ids : Fin 4 → Nat)
    (h : db.products.length = 0) :
    (seed_products db ids).2 = ⟨4, none⟩ ∧
    (seed_products db ids).1.products.length = 4 ∧
    (seed_products db ids).1.products.map (fun d => getOpt d.title) =
      [some "Pastel Visa Card", some "Digital Wallet Subscription",
       some "Smart NFC Tag", some "Premium Card Holder"] := by
  have hnil : db.products = [] := List.length_eq_zero.mp h
  refine ⟨?_, ?_, ?_⟩ <;> simp [seed_products, hnil, sampleProducts, getOpt]

/-- C6 (witness): seeding the empty catalog reports four inserted. -/
theorem seed_empty_inserts_fixture_witness :
    (seed_products ⟨[]⟩ (fun i => i.val)).2 = ⟨4, none⟩ :=
  (seed_empty_inserts_fixture ⟨[]⟩ (fun i => i.val) rfl).1

/-- C7: create validation fails exactly when a field constraint is
violated: any payload with price -1 fails, any payload with rating 5.1
fails, and a payload with non-negative price and rating omitted validates
with stored rating 4.5. -/
theorem create_validation_boundaries (raw : CreatePayload) :
    ((∃ p, validateCreate raw = .ok p) ↔
       (0 ≤ raw.price ∧ ∀ r, raw.rating = some (some r) → 0 ≤ r ∧ r ≤ 5)) ∧
    (raw.price = -1 → validateCreate raw = .error .validationError) ∧
    (raw.rating = some (some (5.1 : ℚ)) →
       validateCreate raw = .error .validationError) ∧
    (0 ≤ raw.price → raw.rating = none →
       ∃ p, validateCreate raw = .ok p ∧ p.rating = some (4.5 : ℚ)) := by
  obtain ⟨t, d, pr, c, st, im, r⟩ := raw
  unfold validateCreate
  rcases r with _ | (_ | rv) <;> dsimp only <;> split_ifs with h1 h2 <;>
    simp_all
  · rintro rfl
    linarith
  · rintro rfl
    linarith
  · intro h
    rcases h2 with h2 | h2
    · linarith
    · exact h2
  · exact ⟨by rintro rfl; linarith, by rintro rfl; linarith [h2.2]⟩

/-- C7 (witness): the three boundary payloads behave as claimed. -/
theorem create_validation_boundaries_witness :
    validateCreate ⟨"a", none, -1, "c", none, none, none⟩ =
      .error .validationError ∧
    validateCreate ⟨"a", none, 1, "c", none, none, some (some (5.1 : ℚ))⟩ =
      .error .validationError ∧
    ∃ p, validateCreate ⟨"a", none, 1, "c", none, none, none⟩ = .ok p ∧
      p.rating = some (4.5 : ℚ) :=
  ⟨(create_validation_boundaries _).2.1 rfl,
   (create_validation_boundaries _).2.2.1 rfl,
   (create_validation_boundaries _).2.2.2 (by norm_num) rfl⟩

/-- C8: listing with a non-negative limit N returns at most N records, and
listing with the limit omitted returns all records matching the filter, with
no default cap. -/
theorem list_products_limit_cap (db : DB) (category : Option String) (n : Nat) :
    (∀ outs, list_products db (some n) category = .ok outs → outs.length ≤ n) ∧
    (∀ outs, list_products db none category = .ok outs →
       outs.length = (get_documents db (effectiveCategory category) none).length) := by
  constructor
  · intro outs h
    unfold list_products at h
    rw [mapDocs_ok_length _ _ h]
    unfold get_documents
    dsimp only
    exact List.length_take_le _ _
  · intro outs h
    unfold list_products at h
    exact mapDocs_ok_length _ _ h

/-- C8 (witness): a two-record catalog listed with limit 1 returns one
record. -/
theorem list_products_limit_cap_witness :
    ([cardOut] : List ProductOut).length ≤ 1 :=
  (list_products_limit_cap ⟨[cardDoc, cardDoc]⟩ none 1).1 [cardOut] rfl

/-- C9: when the identifier is well-formed but the store lookup itself
raises (a driver failure inside `find_one`), the blanket `except Exception`
surfaces it as the 400-class invalid-identifier error, not a server
error. -/
theorem get_product_lookup_fault_to_invalid_id (s : String)
    (f : Nat → LookupResult) (hs : isValidObjectId s = true)
    (hf : f (decodeOid s) = .fault) :
    get_product_core s f = .error .invalidId := by
  simp [get_product_core, hs, hf]

/-- C9 (witness): a faulting lookup under a well-formed id yields the
invalid-id error. -/
theorem get_product_lookup_fault_to_invalid_id_witness :
    get_product_core "0123456789abcdef01234567" (fun _ => LookupResult.fault) =
      .error .invalidId :=
  get_product_lookup_fault_to_invalid_id "0123456789abcdef01234567"
    (fun _ => LookupResult.fault) (by rfl) rfl

/-- C10: a stored document whose rating is present but null maps exactly as
if the rating key were absent, and the resulting output has an absent
rating. -/
theorem rating_null_matches_absent (doc : StoredDoc) :
    product_doc_to_out {doc with rating := some none} =
      product_doc_to_out {doc with rating := none} ∧
    (∀ out, product_doc_to_out {doc with rating := some none} = .ok out →
       out.rating = none) := by
  obtain ⟨oid, t, d, pr, c, st, im, r⟩ := doc
  constructor
  · rfl
  · intro out h
    rcases pr with _ | (_ | pv) <;> rcases t with _ | (_ | tv) <;>
      rcases c with _ | (_ | cv) <;>
        simp [product_doc_to_out, getOpt] at h <;>
          (try split_ifs at h) <;> (try simp_all) <;> simp [← h]

/-- C10 (witness): the fixture with a null rating maps like the fixture
with no rating key, and its output rating is absent. -/
theorem rating_null_matches_absent_witness :
    product_doc_to_out nullRatingDoc = product_doc_to_out docNoRating ∧
    (⟨oidToString 5, "T", none, 0, "C", true, none, none⟩ : ProductOut).rating =
      none := by
  have h := rating_null_matches_absent docNoRating
  exact ⟨h.1, h.2 _ rfl⟩

end Catalog
